import Mathlib

/-!
Shallow embedding of the iti-events-server authentication controller
(src/controllers/authController), the attendee service
(src/services/attendeeService) and the token service, together with the
document store they operate on.  Requests are modelled as optional fields
(an absent or empty body field is falsy in the source), the database as
explicit lists of records threaded through each operation, and every
operation returns its HTTP outcome paired with the resulting store.
-/

namespace ItiEvents

/-- User roles; the source compares against `UserRole.Guest`. -/
inductive UserRole
  | guest
  | admin
deriving DecidableEq, Repr

/-- A User document: unique email, stored (hashed) password, role,
email-verification flag and activity flag. -/
structure User where
  id : Nat
  email : String
  password : String
  role : UserRole
  emailVerified : Bool
  isActive : Bool
deriving DecidableEq, Repr

/-- An Event document, referenced by attendees: activity flag and end date
(dates modelled as natural numbers, larger means later). -/
structure Event where
  id : Nat
  isActive : Bool
  endDate : Nat
deriving DecidableEq, Repr

/-- An EventAttendee join document: references a User and an Event by id,
with an optional approval flag (absent means pending). -/
structure EventAttendee where
  id : Nat
  userId : Nat
  eventId : Nat
  isApproved : Option Bool
deriving DecidableEq, Repr

/-- A UserToken document keyed by (userId, token), backing both email
verification and password reset. -/
structure UserToken where
  userId : Nat
  token : String
deriving DecidableEq, Repr

/-- The document store: the three owned collections plus the referenced
Event collection. -/
structure DB where
  users : List User
  events : List Event
  attendees : List EventAttendee
  userTokens : List UserToken
deriving DecidableEq, Repr

/-- Modelled from the spec: bcrypt hashing lives in the User model /
email service glue that is not under src; per the spec the User record
stores a hashed password.  Hashing is modelled as an injective tagging
function. -/
def hashPassword (p : String) : String := "$2b$" ++ p

/-- bcrypt.compare - succeeds exactly when the stored field is the hash of
the supplied plaintext. -/
def bcryptCompare (p stored : String) : Bool := stored == hashPassword p

/-- User.findOne by email - first match in the collection. -/
def findUserByEmail (e : String) (db : DB) : Option User :=
  db.users.find? (fun u => u.email == e)

/-- User.findById - first match on the (unique) id. -/
def findUserById (i : Nat) (db : DB) : Option User :=
  db.users.find? (fun u => u.id == i)

/-- Event lookup used by populate on an attendee event reference. -/
def findEventById (i : Nat) (db : DB) : Option Event :=
  db.events.find? (fun ev => ev.id == i)

/-- UserToken.findOne on (userId, token). -/
def findUserToken (uid : Nat) (tok : String) (db : DB) : Option UserToken :=
  db.userTokens.find? (fun t => t.userId == uid && t.token == tok)

/-- The two signing secrets of the token service. -/
inductive JwtSecret
  | access
  | refresh
deriving DecidableEq, Repr

/-- A token presented by a client: either malformed, or carrying a signed
payload (the embedded user id), the secret it was signed with and whether
it has expired. -/
inductive JwtInput
  | malformed
  | signed (userId : Nat) (secret : JwtSecret) (expired : Bool)
deriving DecidableEq, Repr

/-- jwt.verify against a secret: yields the embedded user id exactly when
the token is well-formed, signed with that secret and not expired. -/
def jwtVerify (t : JwtInput) (s : JwtSecret) : Option Nat :=
  match t with
  | .malformed => none
  | .signed uid sec exp => if sec = s ∧ exp = false then some uid else none

/-- generateAccessToken - signs the user id with the access secret. -/
def generateAccessToken (u : User) : JwtInput := .signed u.id .access false

/-- generateRefreshToken - signs the user id with the refresh secret. -/
def generateRefreshToken (u : User) : JwtInput := .signed u.id .refresh false

/-- The JSON token payload of a successful auth response: the source sends
res.json with an accessToken field and, for login flows only, a
refreshToken field. -/
structure TokenResponse where
  accessToken : Option JwtInput
  refreshToken : Option JwtInput
deriving DecidableEq, Repr

/-- Outcome of an auth flow: an HTTP success (status, optional user body,
token payload), an AppError passed to next with its status, the email
service error surfaced by next(emailError), or an uncaught exception
thrown before any response is produced. -/
inductive AuthResult
  | success (status : Nat) (user : Option User) (tokens : TokenResponse)
  | failure (status : Nat)
  | emailFailure
  | fault
deriving DecidableEq, Repr

/-- A registration request body (req.body): the fields the register flow
touches; each is optional since a client may omit it. -/
structure RegisterBody where
  email : Option String
  password : Option String
  isActive : Option Bool
  role : Option UserRole
deriving DecidableEq, Repr

/-- The two delete statements at the top of register: remove any
client-supplied isActive and role fields from the body. -/
def stripBody (b : RegisterBody) : RegisterBody :=
  { b with isActive := none, role := none }

/-- Mongoose User.create failure modes distinguished by register. -/
inductive CreateError
  | requiredMissing
  | duplicateEmail
deriving DecidableEq, Repr

/-- Modelled from the spec: the User schema (src/models/User) is not under
src.  Per the spec the record stores a hashed password, the email is
unique (a duplicate raises the 11000 conflict), a missing required field
raises a required validation error, and a freshly registered user starts
with emailVerified false; role and activity flag take schema defaults
when absent from the payload. -/
def userCreate (b : RegisterBody) (freshId : Nat) (db : DB) :
    Except CreateError (User × DB) :=
  match b.email, b.password with
  | none, _ => .error .requiredMissing
  | _, none => .error .requiredMissing
  | some e, some p =>
    if (findUserByEmail e db).isSome then .error .duplicateEmail
    else
      let u : User :=
        { id := freshId, email := e, password := hashPassword p,
          role := b.role.getD .guest, emailVerified := false,
          isActive := b.isActive.getD true }
      .ok (u, { db with users := db.users ++ [u] })

/-- The register flow (authController.register): strips isActive and role,
reads userData.password.length (throwing when the field is absent),
rejects lengths outside [8, 25] with 422, creates the user, and on email
dispatch failure deletes the just-created user and surfaces the email
error; emailOk says whether sendVerifyEmail succeeds, freshId is the id
the store assigns to the new document. -/
def register (body : RegisterBody) (emailOk : Bool) (freshId : Nat)
    (db : DB) : AuthResult × DB :=
  let userData := stripBody body
  match userData.password with
  | none => (.fault, db)
  | some p =>
    if p.length < 8 ∨ p.length > 25 then (.failure 422, db)
    else
      match userCreate userData freshId db with
      | .error .requiredMissing => (.failure 400, db)
      | .error .duplicateEmail => (.failure 409, db)
      | .ok (newUser, db1) =>
        if emailOk then
          (.success 201 (some newUser)
            ⟨some (generateAccessToken newUser),
             some (generateRefreshToken newUser)⟩, db1)
        else
          (.emailFailure,
           { db1 with users := db1.users.eraseP (fun u => u.id == newUser.id) })

/-- The login flow: missing or empty credentials give 400, unknown email
401, unverified email 403, password mismatch 401, otherwise both tokens
are issued. -/
def login (email password : Option String) (db : DB) : AuthResult × DB :=
  match email, password with
  | some e, some p =>
    if e = "" ∨ p = "" then (.failure 400, db)
    else
      match findUserByEmail e db with
      | none => (.failure 401, db)
      | some u =>
        if u.emailVerified = false then (.failure 403, db)
        else if bcryptCompare p u.password = false then (.failure 401, db)
        else (.success 200 none
          ⟨some (generateAccessToken u), some (generateRefreshToken u)⟩, db)
  | _, _ => (.failure 400, db)

/-- The truthiness test applied to a populated attendee event in
loginMobile: the event reference resolved, the event is active and its
end date is not in the past. -/
def eventOk (today : Nat) : Option Event → Bool
  | some ev => ev.isActive && decide (today ≤ ev.endDate)
  | none => false

/-- eventAttendees.some(...) in loginMobile: the user has some attendee
record whose populated event passes eventOk. -/
def hasValidEvent (uid today : Nat) (db : DB) : Bool :=
  (db.attendees.filter (fun a => a.userId == uid)).any
    (fun a => eventOk today (findEventById a.eventId db))

/-- The mobile login flow: identical to login up to the password check,
then gates Guest-role users on having a valid event attendance. -/
def loginMobile (email password : Option String) (today : Nat) (db : DB) :
    AuthResult × DB :=
  match email, password with
  | some e, some p =>
    if e = "" ∨ p = "" then (.failure 400, db)
    else
      match findUserByEmail e db with
      | none => (.failure 401, db)
      | some u =>
        if u.emailVerified = false then (.failure 403, db)
        else if bcryptCompare p u.password = false then (.failure 401, db)
        else if u.role = UserRole.guest ∧ hasValidEvent u.id today db = false
        then (.failure 403, db)
        else (.success 200 none
          ⟨some (generateAccessToken u), some (generateRefreshToken u)⟩, db)
  | _, _ => (.failure 400, db)

/-- The refresh flow: 400 when the body has no refresh token, 403 when
jwt.verify against the refresh secret fails, 404 when the embedded user id
matches no stored user, otherwise a response holding a new access token
only. -/
def refresh (refreshToken : Option JwtInput) (db : DB) : AuthResult × DB :=
  match refreshToken with
  | none => (.failure 400, db)
  | some tok =>
    match jwtVerify tok .refresh with
    | none => (.failure 403, db)
    | some uid =>
      match findUserById uid db with
      | none => (.failure 404, db)
      | some u =>
        (.success 200 none ⟨some (generateAccessToken u), none⟩, db)

/-- The update applied per user document by findByIdAndUpdate with
emailVerified true: touches exactly the document with the given id. -/
def setEmailVerified (uid : Nat) (u : User) : User :=
  if u.id = uid then { u with emailVerified := true } else u

/-- The verify-email flow: 400 on a missing or empty query parameter, 400
when no matching UserToken exists, 404 when the user vanished, otherwise
flips emailVerified true; the UserToken is not deleted. -/
def verify (token : Option String) (id : Option Nat) (db : DB) :
    AuthResult × DB :=
  match token, id with
  | some tok, some uid =>
    if tok = "" then (.failure 400, db)
    else
      match findUserToken uid tok db with
      | none => (.failure 400, db)
      | some _ =>
        match findUserById uid db with
        | none => (.failure 404, db)
        | some _ =>
          (.success 200 none ⟨none, none⟩,
           { db with users := db.users.map (setEmailVerified uid) })
  | _, _ => (.failure 400, db)

/-- Modelled from the spec: User.findByIdAndUpdate with a new password
goes through the User schema (not under src), which per the spec stores a
hashed password; the update replaces the stored field with the hash of the
new password. -/
def setPassword (uid : Nat) (np : String) (u : User) : User :=
  if u.id = uid then { u with password := hashPassword np } else u

/-- The store after the password update of reset-password: exactly the
document with the given id gets the new (hashed) password. -/
def updateUserPassword (uid : Nat) (np : String) (db : DB) : DB :=
  { db with users := db.users.map (setPassword uid np) }

/-- The reset-password flow: 400 on a missing or empty field, 422 on a
password length outside [8, 25], 400 when no matching UserToken exists,
404 when the user vanished, otherwise updates the password and deletes the
consumed token (UserToken.deleteOne removes the first match). -/
def resetPassword (id : Option Nat) (token newPassword : Option String)
    (db : DB) : AuthResult × DB :=
  match id, token, newPassword with
  | some uid, some tok, some np =>
    if tok = "" ∨ np = "" then (.failure 400, db)
    else if np.length < 8 ∨ np.length > 25 then (.failure 422, db)
    else
      match findUserToken uid tok db with
      | none => (.failure 400, db)
      | some _ =>
        match findUserById uid db with
        | none => (.failure 404, db)
        | some _ =>
          let db1 := updateUserPassword uid np db
          let toks := db1.userTokens.eraseP
            (fun t => t.userId == uid && t.token == tok)
          (.success 200 none ⟨none, none⟩, { db1 with userTokens := toks })
  | _, _, _ => (.failure 400, db)

/-- An attendee document as returned to callers: the record itself plus
the user and event fields, which hold the referenced documents when the
query populated them and nothing when it did not (or the reference
dangles). -/
structure PopulatedAttendee where
  attendee : EventAttendee
  user : Option User
  event : Option Event
deriving DecidableEq, Repr

/-- populate("user").populate("event") on an attendee document. -/
def populateAttendee (a : EventAttendee) (db : DB) : PopulatedAttendee :=
  { attendee := a, user := findUserById a.userId db,
    event := findEventById a.eventId db }

/-- attendeeService.getAllAttendees: optional isApproved filter, both
references populated. -/
def getAllAttendees (isApproved : Option Bool) (db : DB) :
    List PopulatedAttendee :=
  let base : List EventAttendee :=
    match isApproved with
    | some b => db.attendees.filter (fun a => a.isApproved == some b)
    | none => db.attendees
  base.map (fun a => populateAttendee a db)

/-- attendeeService.getAttendeeById: findById with both references
populated. -/
def getAttendeeById (i : Nat) (db : DB) : Option PopulatedAttendee :=
  (db.attendees.find? (fun a => a.id == i)).map (fun a => populateAttendee a db)

/-- attendeeService.updateAttendeeApprovalStatus: findByIdAndUpdate with
new true, both references populated on the returned document. -/
def updateAttendeeApprovalStatus (i : Nat) (b : Bool) (db : DB) :
    Option PopulatedAttendee × DB :=
  match db.attendees.find? (fun a => a.id == i) with
  | none => (none, db)
  | some a =>
    let f := fun x : EventAttendee =>
      if x.id = i then { x with isApproved := some b } else x
    let db1 : DB := { db with attendees := db.attendees.map f }
    (some (populateAttendee { a with isApproved := some b } db1), db1)

/-- attendeeService.deleteAttendeeById: findByIdAndDelete with no populate
call, so the returned document carries only the raw reference ids - its
user and event fields are not populated. -/
def deleteAttendeeById (i : Nat) (db : DB) : Option PopulatedAttendee × DB :=
  match db.attendees.find? (fun a => a.id == i) with
  | none => (none, db)
  | some a =>
    (some { attendee := a, user := none, event := none },
     { db with attendees := db.attendees.eraseP (fun x => x.id == i) })

/-! Concrete fixtures used by witnesses and counterexamples. -/

/-- A verified guest user whose stored password is the hash of
password1. -/
def exUser : User :=
  { id := 1, email := "guest@iti.eg", password := hashPassword "password1",
    role := .guest, emailVerified := true, isActive := true }

/-- An active event ending at day 100. -/
def exEvent : Event := { id := 2, isActive := true, endDate := 100 }

/-- An attendee record linking exUser to exEvent. -/
def exAttendee : EventAttendee :=
  { id := 3, userId := 1, eventId := 2, isApproved := some false }

/-- A user token for exUser. -/
def exToken : UserToken := { userId := 1, token := "tok123" }

/-- A store holding exactly the fixtures above. -/
def exDb : DB :=
  { users := [exUser], events := [exEvent], attendees := [exAttendee],
    userTokens := [exToken] }

/-- The user that registering new@iti.eg with password1 creates under
fresh id 9. -/
def exNewUser : User :=
  { id := 9, email := "new@iti.eg", password := hashPassword "password1",
    role := .guest, emailVerified := false, isActive := true }

/-! Theorems. -/

/-- Finding a user by id in a mapped collection, when the map preserves
ids, finds the image of the original document. -/
theorem find?_map_of_id_preserving (i : Nat) (l : List User) (f : User → User)
    (hf : ∀ u, (f u).id = u.id) :
    (l.map f).find? (fun u => u.id == i) =
      ((l.find? (fun u => u.id == i)).map f) := by
  rw [List.find?_map]
  have hp : ((fun u : User => u.id == i) ∘ f) = (fun u => u.id == i) := by
    funext u
    simp [Function.comp_apply, hf u]
  rw [hp]

/-- setEmailVerified never changes the document id. -/
theorem setEmailVerified_id (uid : Nat) (u : User) :
    (setEmailVerified uid u).id = u.id := by
  unfold setEmailVerified
  split <;> rfl

/-- setPassword never changes the document id. -/
theorem setPassword_id (uid : Nat) (np : String) (u : User) :
    (setPassword uid np u).id = u.id := by
  unfold setPassword
  split <;> rfl

/-- Erasing the first match from a collection holding at most one match
leaves a collection with no match. -/
theorem find?_eraseP_of_count_le_one {α : Type} {l : List α} {p : α → Bool}
    (h : (l.filter p).length ≤ 1) : (l.eraseP p).find? p = none := by
  induction l with
  | nil => rfl
  | cons a l ih =>
    by_cases ha : p a
    · rw [List.eraseP_cons_of_pos ha, List.find?_eq_none]
      intro x hx hpx
      have hf : (l.filter p).length = 0 := by
        rw [List.filter_cons_of_pos ha] at h
        simpa using h
      have hmem : x ∈ l.filter p := List.mem_filter.2 ⟨hx, hpx⟩
      rw [List.length_eq_zero] at hf
      rw [hf] at hmem
      exact absurd hmem (List.not_mem_nil x)
    · rw [List.eraseP_cons_of_neg ha, List.find?_cons_of_neg _ ha]
      apply ih
      rwa [List.filter_cons_of_neg ha] at h

/-- eventOk unfolded: the populated event exists, is active and has not
ended. -/
theorem eventOk_iff (today : Nat) (o : Option Event) :
    eventOk today o = true ↔
      ∃ ev, o = some ev ∧ ev.isActive = true ∧ today ≤ ev.endDate := by
  cases o <;> simp [eventOk]

/-- hasValidEvent unfolded to an existential over the store. -/
theorem hasValidEvent_iff (uid today : Nat) (db : DB) :
    hasValidEvent uid today db = true ↔
      ∃ a ∈ db.attendees, a.userId = uid ∧
        ∃ ev, findEventById a.eventId db = some ev ∧
          ev.isActive = true ∧ today ≤ ev.endDate := by
  unfold hasValidEvent
  simp only [List.any_eq_true, List.mem_filter, eventOk_iff, beq_iff_eq]
  constructor
  · rintro ⟨a, ⟨ha, hu⟩, hev⟩
    exact ⟨a, ha, hu, hev⟩
  · rintro ⟨a, ha, hu, hev⟩
    exact ⟨a, ⟨ha, hu⟩, hev⟩

/-- C3: register discards any client-supplied isActive and role fields
before creating the user - its outcome is independent of those request
fields, and a created user always carries the schema defaults for role
and activity, never payload values. -/
theorem register_discards_privileged_fields
    (body : RegisterBody) (emailOk : Bool) (freshId : Nat) (db : DB) :
    (∀ r a, register { body with role := r, isActive := a } emailOk freshId db
        = register body emailOk freshId db) ∧
    (∀ st u tk db2,
        register body emailOk freshId db = (.success st (some u) tk, db2) →
        u.role = UserRole.guest ∧ u.isActive = true) := by
  obtain ⟨em, pw, ia, ro⟩ := body
  refine ⟨fun r a => rfl, fun st u tk db2 h => ?_⟩
  unfold register at h
  simp only [stripBody] at h
  cases pw with
  | none => simp at h
  | some p =>
    simp only [stripBody] at h
    by_cases hlen : p.length < 8 ∨ p.length > 25
    · rw [if_pos hlen] at h; simp at h
    · rw [if_neg hlen] at h
      unfold userCreate at h
      cases em with
      | none => simp at h
      | some e =>
        simp only at h
        by_cases hdup : (findUserByEmail e db).isSome
        · rw [if_pos hdup] at h; simp at h
        · rw [if_neg hdup] at h
          simp only at h
          cases emailOk with
          | true =>
            simp only [if_pos] at h
            cases h
            exact ⟨rfl, rfl⟩
          | false => simp at h

/-- C3 witness: a concrete registration whose payload carried admin role
and an inactive flag still yields a guest active user. -/
theorem register_discards_privileged_fields_witness :
    exNewUser.role = UserRole.guest ∧ exNewUser.isActive = true :=
  (register_discards_privileged_fields
    { email := some "new@iti.eg", password := some "password1",
      isActive := some false, role := some .admin } true 9 exDb).2
    201 exNewUser
    ⟨some (.signed 9 .access false), some (.signed 9 .refresh false)⟩
    { exDb with users := exDb.users ++ [exNewUser] }
    (by decide)

/-- C6: a registration whose password length lies outside [8, 25] fails
with 422 and leaves the store untouched. -/
theorem register_short_password_rejected
    (body : RegisterBody) (p : String) (emailOk : Bool) (freshId : Nat)
    (db : DB) (hp : body.password = some p)
    (hlen : p.length < 8 ∨ p.length > 25) :
    register body emailOk freshId db = (.failure 422, db) := by
  obtain ⟨em, pw, ia, ro⟩ := body
  cases hp
  unfold register
  simp only [stripBody]
  rw [if_pos hlen]

/-- C6 witness: a seven-character password is rejected with 422 on the
fixture store, which is returned unchanged. -/
theorem register_short_password_rejected_witness :
    register { email := some "new@iti.eg", password := some "short12",
               isActive := none, role := none } true 9 exDb
      = (.failure 422, exDb) :=
  register_short_password_rejected _ "short12" true 9 exDb rfl (by decide)

/-- C10: a registration body with no password field makes register throw
while reading password.length, producing a fault rather than any HTTP
error response, and writing nothing. -/
theorem register_missing_password_faults
    (body : RegisterBody) (emailOk : Bool) (freshId : Nat) (db : DB)
    (hp : body.password = none) :
    register body emailOk freshId db = (.fault, db) := by
  obtain ⟨em, pw, ia, ro⟩ := body
  cases hp
  rfl

/-- C10 witness: a concrete body lacking a password faults on the fixture
store. -/
theorem register_missing_password_faults_witness :
    register { email := some "new@iti.eg", password := none,
               isActive := none, role := none } true 9 exDb
      = (.fault, exDb) :=
  register_missing_password_faults _ true 9 exDb rfl

/-- C9 counterexample: deleteAttendeeById does not populate - on a store
where the referenced user and event both exist, the returned document
carries no user and no event, refuting the claim that every attendee
operation returns the joined view. -/
theorem deleteAttendee_returns_unpopulated_cex :
    (deleteAttendeeById 3 exDb).1 =
      some { attendee := exAttendee, user := none, event := none } ∧
    findUserById exAttendee.userId exDb = some exUser ∧
    findEventById exAttendee.eventId exDb = some exEvent := by
  exact ⟨rfl, rfl, rfl⟩

/-- C5: refresh yields 400 on a missing token, 403 on any token failing
verification against the refresh secret (malformed, wrong secret - access
secret included - or expired), 404 when the embedded user id matches no
stored user, and on success a response holding exactly a new access token
and no refresh token. -/
theorem refresh_paths (db : DB) :
    refresh none db = (.failure 400, db) ∧
    (∀ t : JwtInput,
        (t = .malformed ∨
          ∃ uid sec exp, t = .signed uid sec exp ∧
            (sec ≠ JwtSecret.refresh ∨ exp = true)) →
        refresh (some t) db = (.failure 403, db)) ∧
    (∀ uid, findUserById uid db = none →
        refresh (some (.signed uid .refresh false)) db = (.failure 404, db)) ∧
    (∀ uid u, findUserById uid db = some u →
        refresh (some (.signed uid .refresh false)) db =
          (.success 200 none ⟨some (generateAccessToken u), none⟩, db)) := by
  refine ⟨rfl, ?_, ?_, ?_⟩
  · rintro t (rfl | ⟨uid, sec, exp, rfl, hbad⟩)
    · rfl
    · have hc : ¬(sec = JwtSecret.refresh ∧ exp = false) := by
        rcases hbad with h | h
        · exact fun hh => h hh.1
        · intro hh
          rw [h] at hh
          exact absurd hh.2 (by simp)
      simp only [refresh, jwtVerify]
      rw [if_neg hc]
  · intro uid h
    simp [refresh, jwtVerify, h]
  · intro uid u h
    simp [refresh, jwtVerify, h]

/-- C5 witness: a token signed with the access secret is rejected with
403, and a valid refresh token for exUser yields a response with only an
access token. -/
theorem refresh_paths_witness :
    refresh (some (.signed 1 .access false)) exDb = (.failure 403, exDb) ∧
    refresh (some (.signed 1 .refresh false)) exDb =
      (.success 200 none ⟨some (generateAccessToken exUser), none⟩, exDb) :=
  ⟨(refresh_paths exDb).2.1 (.signed 1 .access false)
     (Or.inr ⟨1, .access, false, rfl, Or.inl (by decide)⟩),
   (refresh_paths exDb).2.2.2 1 exUser (by decide)⟩

/-- C1: when user creation succeeds but the verification email fails,
register deletes the just-created user - the store is exactly as before
and no user with the fresh id exists - and surfaces the email error
instead of a success response. -/
theorem register_email_failure_compensates
    (body : RegisterBody) (e p : String) (freshId : Nat) (db : DB)
    (he : body.email = some e) (hp : body.password = some p)
    (hlen : 8 ≤ p.length ∧ p.length ≤ 25)
    (hdup : findUserByEmail e db = none)
    (hfresh : ∀ u ∈ db.users, u.id ≠ freshId) :
    register body false freshId db = (.emailFailure, db) ∧
    findUserById freshId (register body false freshId db).2 = none := by
  obtain ⟨em, pw, ia, ro⟩ := body
  cases he
  cases hp
  have hnlen : ¬(p.length < 8 ∨ p.length > 25) := by omega
  have hmain : register ⟨some e, some p, ia, ro⟩ false freshId db
      = (.emailFailure, db) := by
    simp only [register, stripBody, userCreate]
    rw [if_neg hnlen, hdup]
    simp only [Option.isSome_none, Bool.false_eq_true, if_false,
      Option.getD_none]
    have herase : (db.users ++
        [({ id := freshId, email := e, password := hashPassword p,
            role := UserRole.guest, emailVerified := false,
            isActive := true } : User)]).eraseP (fun u => u.id == freshId)
        = db.users := by
      rw [List.eraseP_append_right]
      · rw [List.eraseP_cons_of_pos (by simp)]
        exact List.append_nil _
      · intro b hb
        simp [hfresh b hb]
    rw [herase]
  refine ⟨hmain, ?_⟩
  rw [hmain]
  rw [findUserById, List.find?_eq_none]
  intro u hu
  simp [hfresh u hu]

/-- C1 witness: registering a fresh email against the fixture store with
a failing email service surfaces the email error and leaves the store
unchanged. -/
theorem register_email_failure_compensates_witness :
    register { email := some "new@iti.eg", password := some "password1",
               isActive := none, role := none } false 9 exDb
      = (.emailFailure, exDb) ∧
    findUserById 9
      (register { email := some "new@iti.eg", password := some "password1",
                  isActive := none, role := none } false 9 exDb).2 = none :=
  register_email_failure_compensates _ "new@iti.eg" "password1" 9 exDb rfl rfl
    (by decide) (by decide) (by decide)

/-- C4: mobile login with correct, verified credentials gates Guest users
on owning at least one attendee record whose populated event is active and
has not ended - failing with 403 and no tokens otherwise - while non-Guest
users always receive both tokens. -/
theorem loginMobile_guest_event_gate
    (e p : String) (today : Nat) (db : DB) (u : User)
    (he : e ≠ "") (hp : p ≠ "")
    (hu : findUserByEmail e db = some u)
    (hv : u.emailVerified = true)
    (hpw : bcryptCompare p u.password = true) :
    (u.role = UserRole.guest →
      ((¬∃ a ∈ db.attendees, a.userId = u.id ∧
          ∃ ev, findEventById a.eventId db = some ev ∧
            ev.isActive = true ∧ today ≤ ev.endDate) →
        loginMobile (some e) (some p) today db = (.failure 403, db)) ∧
      ((∃ a ∈ db.attendees, a.userId = u.id ∧
          ∃ ev, findEventById a.eventId db = some ev ∧
            ev.isActive = true ∧ today ≤ ev.endDate) →
        loginMobile (some e) (some p) today db =
          (.success 200 none ⟨some (generateAccessToken u),
            some (generateRefreshToken u)⟩, db))) ∧
    (u.role ≠ UserRole.guest →
      loginMobile (some e) (some p) today db =
        (.success 200 none ⟨some (generateAccessToken u),
          some (generateRefreshToken u)⟩, db)) := by
  refine ⟨fun hrole => ⟨fun hno => ?_, fun hyes => ?_⟩, fun hrole => ?_⟩
  · have hfe : hasValidEvent u.id today db = false := by
      rw [Bool.eq_false_iff]
      intro hcontra
      exact hno ((hasValidEvent_iff u.id today db).1 hcontra)
    simp [loginMobile, he, hp, hu, hv, hpw, hrole, hfe]
  · have hfe : hasValidEvent u.id today db = true :=
      (hasValidEvent_iff u.id today db).2 hyes
    simp [loginMobile, he, hp, hu, hv, hpw, hfe]
  · simp [loginMobile, he, hp, hu, hv, hpw, hrole]

/-- C4 witness: the fixture guest logs in on day 50 while the event is
running, and is denied on day 200 after the event ended. -/
theorem loginMobile_guest_event_gate_witness :
    loginMobile (some "guest@iti.eg") (some "password1") 50 exDb =
      (.success 200 none ⟨some (generateAccessToken exUser),
        some (generateRefreshToken exUser)⟩, exDb) ∧
    loginMobile (some "guest@iti.eg") (some "password1") 200 exDb =
      (.failure 403, exDb) :=
  ⟨((loginMobile_guest_event_gate "guest@iti.eg" "password1" 50 exDb exUser
      (by decide) (by decide) (by decide) (by decide) (by decide)).1
      (by decide)).2 (by decide),
   ((loginMobile_guest_event_gate "guest@iti.eg" "password1" 200 exDb exUser
      (by decide) (by decide) (by decide) (by decide) (by decide)).1
      (by decide)).1 (by decide)⟩

/-- C7: a successful email verification flips the user's emailVerified
flag and changes nothing else - all other collections are untouched, the
UserToken survives - so a second verification with the same pair succeeds
again with 200. -/
theorem verify_keeps_token_and_repeats
    (tok : String) (uid : Nat) (db : DB) (ut : UserToken) (u0 : User)
    (htne : tok ≠ "")
    (htok : findUserToken uid tok db = some ut)
    (huser : findUserById uid db = some u0) :
    (verify (some tok) (some uid) db).1 = .success 200 none ⟨none, none⟩ ∧
    (verify (some tok) (some uid) db).2.users =
      db.users.map (setEmailVerified uid) ∧
    (verify (some tok) (some uid) db).2.events = db.events ∧
    (verify (some tok) (some uid) db).2.attendees = db.attendees ∧
    (verify (some tok) (some uid) db).2.userTokens = db.userTokens ∧
    (verify (some tok) (some uid) (verify (some tok) (some uid) db).2).1 =
      .success 200 none ⟨none, none⟩ := by
  have hmain : verify (some tok) (some uid) db =
      (.success 200 none ⟨none, none⟩,
       { db with users := db.users.map (setEmailVerified uid) }) := by
    simp [verify, htne, htok, huser]
  have htok2 : findUserToken uid tok
      ({ db with users := db.users.map (setEmailVerified uid) } : DB) =
      some ut := htok
  have huser2 : findUserById uid
      ({ db with users := db.users.map (setEmailVerified uid) } : DB) =
      some (setEmailVerified uid u0) := by
    show (db.users.map (setEmailVerified uid)).find? (fun u => u.id == uid)
      = some (setEmailVerified uid u0)
    rw [find?_map_of_id_preserving uid db.users (setEmailVerified uid)
      (setEmailVerified_id uid)]
    rw [show db.users.find? (fun u => u.id == uid) = some u0 from huser]
    rfl
  refine ⟨by rw [hmain], by rw [hmain], by rw [hmain], by rw [hmain],
    by rw [hmain], ?_⟩
  rw [hmain]
  simp [verify, htne, htok2, huser2]

/-- C7 witness: verifying the fixture token twice succeeds both times and
keeps the token around. -/
theorem verify_keeps_token_and_repeats_witness :
    (verify (some "tok123") (some 1) exDb).1 =
      .success 200 none ⟨none, none⟩ ∧
    (verify (some "tok123") (some 1) exDb).2.userTokens = exDb.userTokens ∧
    (verify (some "tok123") (some 1)
        (verify (some "tok123") (some 1) exDb).2).1 =
      .success 200 none ⟨none, none⟩ := by
  have h := verify_keeps_token_and_repeats "tok123" 1 exDb exToken exUser
    (by decide) (by decide) (by decide)
  exact ⟨h.1, h.2.2.2.2.1, h.2.2.2.2.2⟩

/-- C2: a successful reset-password deletes the matching UserToken, so
presenting the same (id, token) pair again fails with 400 and leaves the
store - the password included - unchanged. -/
theorem resetPassword_consumes_token
    (uid : Nat) (tok np : String) (db : DB) (ut : UserToken) (u0 : User)
    (htne : tok ≠ "") (hlen : 8 ≤ np.length ∧ np.length ≤ 25)
    (htok : findUserToken uid tok db = some ut)
    (huser : findUserById uid db = some u0)
    (huniq : (db.userTokens.filter
        (fun t => t.userId == uid && t.token == tok)).length ≤ 1) :
    (resetPassword (some uid) (some tok) (some np) db).1 =
      .success 200 none ⟨none, none⟩ ∧
    findUserToken uid tok
      (resetPassword (some uid) (some tok) (some np) db).2 = none ∧
    resetPassword (some uid) (some tok) (some np)
        (resetPassword (some uid) (some tok) (some np) db).2 =
      (.failure 400, (resetPassword (some uid) (some tok) (some np) db).2) := by
  have hnp : np ≠ "" := by
    intro h
    rw [h] at hlen
    exact absurd hlen.1 (by decide)
  have hnlen : ¬(np.length < 8 ∨ np.length > 25) := by omega
  have hcond : ¬(tok = "" ∨ np = "") := by simp [htne, hnp]
  have hmain : resetPassword (some uid) (some tok) (some np) db =
      (.success 200 none ⟨none, none⟩,
       { users := db.users.map (setPassword uid np), events := db.events,
         attendees := db.attendees,
         userTokens := db.userTokens.eraseP
           (fun t => t.userId == uid && t.token == tok) }) := by
    simp only [resetPassword, updateUserPassword]
    rw [if_neg hcond, if_neg hnlen, htok, huser]
  have htok2 : findUserToken uid tok
      (resetPassword (some uid) (some tok) (some np) db).2 = none := by
    rw [hmain]
    exact find?_eraseP_of_count_le_one huniq
  refine ⟨by rw [hmain], htok2, ?_⟩
  rw [hmain] at htok2 ⊢
  simp only [resetPassword]
  rw [if_neg hcond, if_neg hnlen, htok2]

/-- C2 witness: resetting the fixture user's password once succeeds,
deletes the token, and the identical second request fails with 400. -/
theorem resetPassword_consumes_token_witness :
    (resetPassword (some 1) (some "tok123") (some "newpassword1") exDb).1 =
      .success 200 none ⟨none, none⟩ ∧
    findUserToken 1 "tok123"
      (resetPassword (some 1) (some "tok123") (some "newpassword1") exDb).2 =
      none ∧
    resetPassword (some 1) (some "tok123") (some "newpassword1")
        (resetPassword (some 1) (some "tok123") (some "newpassword1") exDb).2 =
      (.failure 400,
       (resetPassword (some 1) (some "tok123") (some "newpassword1") exDb).2)
    :=
  resetPassword_consumes_token 1 "tok123" "newpassword1" exDb exToken exUser
    (by decide) (by decide) (by decide) (by decide) (by decide)

/-- C8: after a successful reset-password the stored password field is the
hash of the new password, so a subsequent login with that email and the
new password passes the bcrypt comparison and issues both tokens. -/
theorem resetPassword_login_roundtrip
    (uid : Nat) (tok np : String) (db : DB) (ut : UserToken) (u0 : User)
    (htne : tok ≠ "") (hlen : 8 ≤ np.length ∧ np.length ≤ 25)
    (htok : findUserToken uid tok db = some ut)
    (huser : findUserById uid db = some u0)
    (hene : u0.email ≠ "")
    (hverified : u0.emailVerified = true)
    (hmail : findUserByEmail u0.email
        (resetPassword (some uid) (some tok) (some np) db).2 =
      some (setPassword uid np u0)) :
    findUserById uid (resetPassword (some uid) (some tok) (some np) db).2 =
      some (setPassword uid np u0) ∧
    (setPassword uid np u0).password = hashPassword np ∧
    login (some u0.email) (some np)
        (resetPassword (some uid) (some tok) (some np) db).2 =
      (.success 200 none
        ⟨some (generateAccessToken (setPassword uid np u0)),
         some (generateRefreshToken (setPassword uid np u0))⟩,
       (resetPassword (some uid) (some tok) (some np) db).2) := by
  have hnp : np ≠ "" := by
    intro h
    rw [h] at hlen
    exact absurd hlen.1 (by decide)
  have hnlen : ¬(np.length < 8 ∨ np.length > 25) := by omega
  have hcond : ¬(tok = "" ∨ np = "") := by simp [htne, hnp]
  have hid : u0.id = uid := by
    have := List.find?_some huser
    simpa using this
  have hmain : resetPassword (some uid) (some tok) (some np) db =
      (.success 200 none ⟨none, none⟩,
       { users := db.users.map (setPassword uid np), events := db.events,
         attendees := db.attendees,
         userTokens := db.userTokens.eraseP
           (fun t => t.userId == uid && t.token == tok) }) := by
    simp only [resetPassword, updateUserPassword]
    rw [if_neg hcond, if_neg hnlen, htok, huser]
  have hpw : (setPassword uid np u0).password = hashPassword np := by
    unfold setPassword
    rw [if_pos hid]
  refine ⟨?_, hpw, ?_⟩
  · rw [hmain]
    show (db.users.map (setPassword uid np)).find? (fun u => u.id == uid)
      = some (setPassword uid np u0)
    rw [find?_map_of_id_preserving uid db.users (setPassword uid np)
      (setPassword_id uid np)]
    rw [show db.users.find? (fun u => u.id == uid) = some u0 from huser]
    rfl
  · have hver2 : (setPassword uid np u0).emailVerified = true := by
      unfold setPassword
      rw [if_pos hid]
      exact hverified
    have hcmp : bcryptCompare np (setPassword uid np u0).password = true := by
      rw [hpw]
      simp [bcryptCompare]
    simp [login, hene, hnp, hmail, hver2, hcmp]

/-- C8 witness: after the fixture reset, logging in with the new password
succeeds. -/
theorem resetPassword_login_roundtrip_witness :
    findUserById 1
        (resetPassword (some 1) (some "tok123") (some "newpassword1") exDb).2 =
      some (setPassword 1 "newpassword1" exUser) ∧
    (setPassword 1 "newpassword1" exUser).password =
      hashPassword "newpassword1" ∧
    login (some exUser.email) (some "newpassword1")
        (resetPassword (some 1) (some "tok123") (some "newpassword1") exDb).2 =
      (.success 200 none
        ⟨some (generateAccessToken (setPassword 1 "newpassword1" exUser)),
         some (generateRefreshToken (setPassword 1 "newpassword1" exUser))⟩,
       (resetPassword (some 1) (some "tok123") (some "newpassword1") exDb).2)
    :=
  resetPassword_login_roundtrip 1 "tok123" "newpassword1" exDb exToken exUser
    (by decide) (by decide) (by decide) (by decide) (by decide) (by decide)
    (by decide)

/-- C9 amended: the list, get-by-id and approval-update operations return
the attendee joined with its referenced user and event, while delete by id
returns the bare record with neither reference populated. -/
theorem attendee_ops_population (db : DB) (i : Nat) (b : Bool)
    (filt : Option Bool) :
    (∀ v ∈ getAllAttendees filt db,
        v.user = findUserById v.attendee.userId db ∧
        v.event = findEventById v.attendee.eventId db) ∧
    (∀ v, getAttendeeById i db = some v →
        v.user = findUserById v.attendee.userId db ∧
        v.event = findEventById v.attendee.eventId db) ∧
    (∀ v db2, updateAttendeeApprovalStatus i b db = (some v, db2) →
        v.user = findUserById v.attendee.userId db2 ∧
        v.event = findEventById v.attendee.eventId db2) ∧
    (∀ v db2, deleteAttendeeById i db = (some v, db2) →
        v.user = none ∧ v.event = none) := by
  refine ⟨?_, ?_, ?_, ?_⟩
  · intro v hv
    simp only [getAllAttendees] at hv
    obtain ⟨a, ha, rfl⟩ := List.mem_map.1 hv
    exact ⟨rfl, rfl⟩
  · intro v hv
    unfold getAttendeeById at hv
    obtain ⟨a, _, rfl⟩ := Option.map_eq_some'.1 hv
    exact ⟨rfl, rfl⟩
  · intro v db2 h
    unfold updateAttendeeApprovalStatus at h
    cases hfind : db.attendees.find? (fun a => a.id == i) with
    | none => rw [hfind] at h; exact absurd h (by simp)
    | some a =>
      rw [hfind] at h
      simp only [Prod.mk.injEq, Option.some.injEq] at h
      obtain ⟨rfl, rfl⟩ := h
      exact ⟨rfl, rfl⟩
  · intro v db2 h
    unfold deleteAttendeeById at h
    cases hfind : db.attendees.find? (fun a => a.id == i) with
    | none => rw [hfind] at h; exact absurd h (by simp)
    | some a =>
      rw [hfind] at h
      simp only [Prod.mk.injEq, Option.some.injEq] at h
      obtain ⟨rfl, rfl⟩ := h
      exact ⟨rfl, rfl⟩

/-- C9 amended witness: on the fixture store the listed view is populated
and the deleted document is not. -/
theorem attendee_ops_population_witness :
    ((populateAttendee exAttendee exDb).user =
      findUserById (populateAttendee exAttendee exDb).attendee.userId exDb ∧
     (populateAttendee exAttendee exDb).event =
      findEventById (populateAttendee exAttendee exDb).attendee.eventId exDb)
    ∧
    ((⟨exAttendee, none, none⟩ : PopulatedAttendee).user = none ∧
     (⟨exAttendee, none, none⟩ : PopulatedAttendee).event = none) :=
  ⟨(attendee_ops_population exDb 3 true none).1 (populateAttendee exAttendee exDb)
      (by decide),
   (attendee_ops_population exDb 3 true none).2.2.2 ⟨exAttendee, none, none⟩
      { exDb with attendees := [] } (by decide)⟩

end ItiEvents
